import Mathlib

/-!
Shallow embedding of the tgiistat client (src/tgiistat.py): the SRP-6a
authentication handshake in `Fetcher.connect`, the authenticated page fetch in
`Fetcher.fetch`, and the HTML metric extraction in `parse`.

The pysrp library calls made by `connect` (`srp.User`,
`srp._mod.BN_hex2bn`, `start_authentication`, `process_challenge`) are modelled
from the library code path the script requires: the script touches
`srp._mod.BN_hex2bn`, which only the ctypes backend (`srp._ctsrp`, wrapping
OpenSSL bignums) exposes, so that backend's `User` is the one modelled here.
The hash algorithm (SHA-256 in the script), the group parameters N and g
(`srp.NG_2048` in the script) and the random secret ephemeral `a` are
abstracted into an `SrpLib` parameter record: none of the verified claims
depends on their concrete values, and all theorems quantify over them.

HTTP transport (the `requests` library) is modelled by an environment record
holding the server's responses; every run of `connect`/`fetch` returns the
list of HTTP requests it issued together with its Python-level outcome
(normal return or raised exception).
-/

namespace Tgiistat

/-- Byte strings (Python `bytes`) are lists of byte values. -/
abbrev Bytes := List Nat

/-- Big-endian interpretation of a byte string as a number (OpenSSL `BN_bin2bn`). -/
def bytesToNat (bs : Bytes) : Nat :=
  bs.foldl (fun n b => n * 256 + b) 0

/-- Helper for `natToBytes`, structurally recursive on a fuel argument so that
it reduces in the kernel. -/
def natToBytesAux : Nat → Nat → Bytes
  | 0, _ => []
  | fuel + 1, n => if n = 0 then [] else natToBytesAux fuel (n / 256) ++ [n % 256]

/-- Minimal big-endian byte representation of a number (OpenSSL `BN_bn2bin`;
zero becomes the empty byte string). -/
def natToBytes (n : Nat) : Bytes := natToBytesAux n n

/-- Modular exponentiation (OpenSSL `BN_mod_exp`). -/
def powMod (b e m : Nat) : Nat := b ^ e % m

/-- Value of a hexadecimal digit character, `none` on a non-hex character. -/
def hexVal (c : Char) : Option Nat :=
  if 48 ≤ c.toNat ∧ c.toNat ≤ 57 then some (c.toNat - 48)
  else if 97 ≤ c.toNat ∧ c.toNat ≤ 102 then some (c.toNat - 87)
  else if 65 ≤ c.toNat ∧ c.toNat ≤ 70 then some (c.toNat - 55)
  else none

/-- Parse a hex string into a number (OpenSSL `BN_hex2bn`; the constant the
script feeds it is pure hex, so the non-hex case never arises there). -/
def hexToNat (s : String) : Nat :=
  s.toList.foldl (fun n c => match hexVal c with | some d => n * 16 + d | none => n) 0

/-- Helper for `unhexlify`: decode pairs of hex digits. -/
def unhexAux : List Char → Option Bytes
  | [] => some []
  | [_] => none
  | c1 :: c2 :: rest =>
    match hexVal c1, hexVal c2, unhexAux rest with
    | some h, some l, some bs => some ((h * 16 + l) :: bs)
    | _, _, _ => none

/-- Python `binascii.unhexlify`: `none` models the raised `binascii.Error`
(odd length or non-hex digit); the empty string decodes to the empty byte
string without error. -/
def unhexlify (s : String) : Option Bytes := unhexAux s.toList

/-- Lower-case hex digit for a value below 16. -/
def hexDigitChar (n : Nat) : Char :=
  if n < 10 then Char.ofNat (48 + n) else Char.ofNat (87 + n)

/-- Python `binascii.hexlify`: two lower-case hex digits per byte. -/
def hexlify (bs : Bytes) : String :=
  String.mk (bs.map (fun b => [hexDigitChar (b / 16), hexDigitChar (b % 16)])).flatten

/-- Bytes of a string (the script only ever handles ASCII identities). -/
def strBytes (s : String) : Bytes := s.toList.map Char.toNat

/-- Whether the first list is a prefix of the second (Boolean). -/
def startsWithL : List Char → List Char → Bool
  | [], _ => true
  | _ :: _, [] => false
  | a :: as, b :: bs => a == b && startsWithL as bs

/-- Whether `n` occurs as a contiguous sublist of the second argument. -/
def hasSubL (n : List Char) : List Char → Bool
  | [] => n.isEmpty
  | h :: t => startsWithL n (h :: t) || hasSubL n t

/-- Python `needle in hay` on strings (also the semantics of an
`re.compile(unit)` search, since the units are literal patterns). -/
def containsSub (hay needle : String) : Bool := hasSubL needle.toList hay.toList

/-- Lookup in a JSON object / form-data association list (Python `j[key]`
returns the value, `key in j` tests membership). -/
def jget (k : String) : List (String × String) → Option String
  | [] => none
  | (k2, v) :: t => if k2 == k then some v else jget k t

/-! ### The SRP library model (pysrp, ctypes backend) -/

/-- Parameters the script fixes when calling pysrp, abstracted: the hash
(SHA-256 in the script) as a map from input bytes to digest bytes, the group
constants N and g (`srp.NG_2048` in the script), and the random 256-bit secret
ephemeral `a` drawn in `srp.User.__init__`. -/
structure SrpLib where
  N : Nat
  g : Nat
  a : Nat
  H : Bytes → Bytes

/-- State of a pysrp `User` object (the fields `connect` touches). -/
structure SrpUser where
  I : String
  p : String
  a : Nat
  A : Nat
  k : Nat

/-- The standard SRP-6a multiplier the library computes in `User.__init__`:
`k = H(N || g)` (`H_nn` in `srp._ctsrp`). -/
def standardK (lib : SrpLib) : Nat :=
  bytesToNat (lib.H (natToBytes lib.N ++ natToBytes lib.g))

/-- pysrp `srp.User(username, password, hash_alg=srp.SHA256,
ng_type=srp.NG_2048)`, with the multiplier the constructor computes passed
explicitly as `k0` (the constructor itself passes `standardK`): it draws the
random `a` and computes `A = g^a mod N`. -/
def User.initK (lib : SrpLib) (I p : String) (k0 : Nat) : SrpUser :=
  { I := I, p := p, a := lib.a, A := powMod lib.g lib.a lib.N, k := k0 }

/-- pysrp `srp.User(...)` exactly as the script calls it. -/
def User.init (lib : SrpLib) (I p : String) : SrpUser :=
  User.initK lib I p (standardK lib)

/-- `srp._mod.BN_hex2bn(user.k, hex)`: overwrite the `k` bignum in place. -/
def BN_hex2bn (st : SrpUser) (hex : String) : SrpUser :=
  { st with k := hexToNat hex }

/-- The device-specific multiplier constant the script writes over `k`
(src/tgiistat.py line 62). -/
def kDeviceHex : String :=
  "05b9e8ef059c6b32ea59fc1d322d37f04aa30bae5aa9003b8321e21ddb04e300"

/-- Numeric value of the device-specific multiplier constant. -/
def kDevice : Nat := hexToNat kDeviceHex

/-- The SRP scrambling parameter `u = H(A || B)` (`H_nn` on the two public
ephemerals). -/
def scramble (lib : SrpLib) (A B : Nat) : Nat :=
  bytesToNat (lib.H (natToBytes A ++ natToBytes B))

/-- pysrp `User.process_challenge(bytes_s, bytes_B)` (ctypes backend): the
SRP-6a safety checks return `None` (modelled `none`) when `B` is the zero
bignum or the scrambling parameter `u` is zero; otherwise it computes
`x = H(s || H(I ":" p))`, the premaster
`S = (B - k * g^x) ^ (a + u * x) mod N`, the session key `K = H(S)` and the
client proof `M = H((H(N) xor H(g)) || H(I) || s || A || B || K)`, using the
object's current multiplier `st.k`.  Salt bytes go through a bignum
round-trip (`BN_bin2bn`/`BN_bn2bin`), as in the library. -/
def process_challenge (lib : SrpLib) (st : SrpUser) (s Bb : Bytes) : Option Bytes :=
  let B := bytesToNat Bb
  if B = 0 then none
  else
    let u := scramble lib st.A B
    if u = 0 then none
    else
      let sBN := natToBytes (bytesToNat s)
      let x := bytesToNat (lib.H (sBN ++ lib.H (strBytes st.I ++ [58] ++ strBytes st.p)))
      let v := powMod lib.g x lib.N
      let base := (((B : Int) - (st.k : Int) * (v : Int)).emod (lib.N : Int)).toNat
      let S := powMod base (st.a + u * x) lib.N
      let K := lib.H (natToBytes S)
      let hxor := List.zipWith (fun a b => a ^^^ b) (lib.H (natToBytes lib.N)) (lib.H (natToBytes lib.g))
      some (lib.H (hxor ++ lib.H (strBytes st.I) ++ sBN ++ natToBytes st.A ++ natToBytes B ++ K))

/-- The SRP-6a client proof with an explicit multiplier `k`, written from the
specification's equations (spec §4.1 step 3): `u = H(A || B)`,
`x = H(s || H(I ":" p))`, premaster `S = (B - k * g^x) ^ (a + u * x) mod N`,
session key `K = H(S)`, and
`M = H(H(N) XOR H(g) || H(I) || s || A || B || K)`, with `A = g^a mod N`. -/
def srp6aClientProof (lib : SrpLib) (k : Nat) (I p : String) (s Bb : Bytes) : Bytes :=
  let A := powMod lib.g lib.a lib.N
  let B := bytesToNat Bb
  let u := bytesToNat (lib.H (natToBytes A ++ natToBytes B))
  let sBN := natToBytes (bytesToNat s)
  let x := bytesToNat (lib.H (sBN ++ lib.H (strBytes I ++ [58] ++ strBytes p)))
  let v := powMod lib.g x lib.N
  let base := (((B : Int) - (k : Int) * (v : Int)).emod (lib.N : Int)).toNat
  let S := powMod base (lib.a + u * x) lib.N
  let K := lib.H (natToBytes S)
  let hxor := List.zipWith (fun a b => a ^^^ b) (lib.H (natToBytes lib.N)) (lib.H (natToBytes lib.g))
  lib.H (hxor ++ lib.H (strBytes I) ++ sBN ++ natToBytes A ++ natToBytes B ++ K)

/-! ### The HTTP layer model -/

/-- Configuration (tgiistat.toml): address, username, password. -/
structure Config where
  address : String
  username : String
  password : String

/-- An HTTP request issued by the client: a GET of a URL, or a form-encoded
POST of a URL with its data fields in order. -/
inductive Request where
  | get (url : String)
  | post (url : String) (data : List (String × String))
deriving DecidableEq, Repr

/-- Python exceptions the modelled code can raise. -/
inductive PyErr where
  /-- A plain `Exception(msg)` raised by the script itself. -/
  | exn (msg : String)
  /-- `KeyError` from `j[key]` on a missing JSON field. -/
  | keyError (k : String)
  /-- `binascii.Error` from `unhexlify` on a non-hex or odd-length string. -/
  | binasciiError
  /-- `TypeError` from `binascii.hexlify(None)` when `process_challenge`
  returns `None`. -/
  | typeError (msg : String)
  /-- `ValueError` (tuple unpacking, `float` conversion). -/
  | valueError (msg : String)
  /-- `IndexError` from `lr[0]` on an empty find result. -/
  | indexError (msg : String)
deriving DecidableEq, Repr

/-- The server's responses for one run of `connect`: the CSRF GET body, the
HTTP status and (already parsed) JSON object of each of the two POSTs to
`/authenticate`. -/
structure Env where
  csrfBody : String
  status1 : Nat
  json1 : List (String × String)
  status2 : Nat
  json2 : List (String × String)

/-- `self.top_url = 'http://%s' % config['address']`. -/
def topUrl (cfg : Config) : String := "http://" ++ cfg.address

/-- URL of the CSRF GET. -/
def csrfUrl (cfg : Config) : String := topUrl cfg ++ "/login.lp?action=getcsrf"

/-- URL of both authentication POSTs. -/
def authUrl (cfg : Config) : String := topUrl cfg ++ "/authenticate"

/-- URL of the statistics page GET. -/
def modemUrl (cfg : Config) : String := topUrl cfg ++ "/modals/broadband-bridge-modal.lp"

/-- `Fetcher.connect` (src/tgiistat.py lines 44-105), with the multiplier the
pysrp constructor computes passed explicitly as `k0`; `connect` itself passes
`standardK lib`, as the library does.  Returns the list of issued HTTP
requests together with the outcome: `Except.ok ()` models returning the
authenticated session, `Except.error` models the raised exception. -/
def connectK (lib : SrpLib) (cfg : Config) (env : Env) (k0 : Nat) :
    List Request × Except PyErr Unit :=
  let csrf := env.csrfBody
  if csrf.length ≠ 64 then
    ([Request.get (csrfUrl cfg)], .error (.exn "Bad csrf response"))
  else
    -- srp.User(...) followed by the in-place k override via BN_hex2bn
    let srp_user := BN_hex2bn (User.initK lib cfg.username cfg.password k0) kDeviceHex
    -- I, A = srp_user.start_authentication(); A = binascii.hexlify(A)
    let d1 := [("I", cfg.username), ("A", hexlify (natToBytes srp_user.A)), ("CSRFtoken", csrf)]
    if env.status1 ≠ 200 then
      ([Request.get (csrfUrl cfg), Request.post (authUrl cfg) d1],
        .error (.exn ("Error authenticating " ++ toString env.status1)))
    else
      match jget "s" env.json1 with
      | none => ([Request.get (csrfUrl cfg), Request.post (authUrl cfg) d1],
          .error (.keyError "s"))
      | some sH =>
        match jget "B" env.json1 with
        | none => ([Request.get (csrfUrl cfg), Request.post (authUrl cfg) d1],
            .error (.keyError "B"))
        | some BH =>
          match unhexlify sH with
          | none => ([Request.get (csrfUrl cfg), Request.post (authUrl cfg) d1],
              .error .binasciiError)
          | some s =>
            match unhexlify BH with
            | none => ([Request.get (csrfUrl cfg), Request.post (authUrl cfg) d1],
                .error .binasciiError)
            | some Bb =>
              match process_challenge lib srp_user s Bb with
              | none => ([Request.get (csrfUrl cfg), Request.post (authUrl cfg) d1],
                  .error (.typeError
                    "argument should be a bytes-like object or ASCII string, not \x27NoneType\x27"))
              | some Mb =>
                let d2 := [("M", hexlify Mb), ("CSRFtoken", csrf)]
                if env.status2 ≠ 200 then
                  ([Request.get (csrfUrl cfg), Request.post (authUrl cfg) d1,
                      Request.post (authUrl cfg) d2],
                    .error (.exn ("Didn\x27t connect, error " ++ toString env.status2)))
                else
                  match jget "error" env.json2 with
                  | some e => ([Request.get (csrfUrl cfg), Request.post (authUrl cfg) d1,
                        Request.post (authUrl cfg) d2],
                      .error (.exn ("Authentication error. Wrong password? (" ++ e ++ ")")))
                  | none => ([Request.get (csrfUrl cfg), Request.post (authUrl cfg) d1,
                        Request.post (authUrl cfg) d2],
                      .ok ())

/-- `Fetcher.connect` as the script runs it: the pysrp constructor supplies
the standard multiplier, which line 62 then overwrites. -/
def connect (lib : SrpLib) (cfg : Config) (env : Env) :
    List Request × Except PyErr Unit :=
  connectK lib cfg env (standardK lib)

/-! ### Fetcher.fetch -/

/-- State of a `Fetcher` object: its configuration and the cached session
(`self.session`, initialised to `None` in `__init__`; a `requests.Session`
object is always truthy, so `not self.session` is exactly `session is None`). -/
structure Fetcher where
  config : Config
  session : Option Unit

/-- `Fetcher.__init__`. -/
def Fetcher.init (cfg : Config) : Fetcher := { config := cfg, session := none }

/-- Server responses for one call of `fetch`: the responses `connect` would
see if it runs, plus the status and body of the statistics page GET. -/
structure FetchEnv where
  connectEnv : Env
  pageStatus : Nat
  pageBody : String

/-- `Fetcher.fetch` (src/tgiistat.py lines 107-113): connect if there is no
cached session, then GET the statistics page and return `r.text`.  The
response status of the final GET is never examined by the code. -/
def fetch (lib : SrpLib) (f : Fetcher) (env : FetchEnv) :
    List Request × Except PyErr (String × Fetcher) :=
  match f.session with
  | some _ =>
    ([Request.get (modemUrl f.config)], .ok (env.pageBody, f))
  | none =>
    match connect lib f.config env.connectEnv with
    | (tr, .error e) => (tr, .error e)
    | (tr, .ok s) =>
      let f2 : Fetcher := { f with session := some s }
      (tr ++ [Request.get (modemUrl f.config)], .ok (env.pageBody, f2))

/-! ### parse -/

/-- Abstraction of the BeautifulSoup document for `parse`: each element
records one text node that a `find_all(string=title)` lookup can hit (its
`title`) together with the text nodes of that node's grandparent subtree in
document order (`texts`), which is what
`lr[0].parent.parent.find_all(string=re.compile(unit))` scans. -/
structure HtmlSection where
  title : String
  texts : List String
deriving DecidableEq, Repr

/-- `soup.find_all(string=title)`, keeping document order. -/
def sectionsWith (soup : List HtmlSection) (title : String) : List HtmlSection :=
  soup.filter (fun sec => sec.title == title)

/-- The text nodes of a section matching `re.compile(unit)` (substring
search, the units being literal patterns), in document order. -/
def matchesIn (sec : HtmlSection) (unit : String) : List String :=
  sec.texts.filter (fun t => containsSub t unit)

/-- Python `str.replace(pat, "")` on char lists, fuelled for structural
recursion (left-to-right, non-overlapping; the fuel `s.length + 1` always
suffices for the non-empty patterns the script uses). -/
def removeSub : Nat → List Char → List Char → List Char
  | 0, _, _ => []
  | _ + 1, [], _ => []
  | fuel + 1, c :: t, pat =>
    if startsWithL pat (c :: t) then removeSub fuel (List.drop pat.length (c :: t)) pat
    else c :: removeSub fuel t pat

/-- Python `t.replace(unit, "")`. -/
def pyReplace (s pat : String) : String :=
  String.mk (removeSub (s.toList.length + 1) s.toList pat.toList)

/-- Whitespace characters removed by Python `str.strip()`. -/
def isPySpace (c : Char) : Bool :=
  c == ' ' || c.toNat == 9 || c.toNat == 10 || c.toNat == 13 || c.toNat == 11 || c.toNat == 12

/-- Python `str.strip()`. -/
def pyStrip (s : String) : String :=
  String.mk (((s.toList.dropWhile isPySpace).reverse.dropWhile isPySpace).reverse)

/-- An exact decimal value as produced by Python `float` on the plain decimal
literals the modem page carries: the (signed) digit string over the power of
ten of the fractional part.  Kept unnormalised so that every operation on it
reduces in the kernel; `PyFloat.toRat` gives its value. -/
structure PyFloat where
  num : Int
  den : Nat
deriving DecidableEq, Repr

/-- Value of a `PyFloat` as a rational. -/
def PyFloat.toRat (x : PyFloat) : Rat := (x.num : Rat) / (x.den : Rat)

/-- Digit-string value accumulator: `none` on any non-digit character. -/
def decDigitsAux : List Char → Nat → Option Nat
  | [], acc => some acc
  | c :: t, acc =>
    if 48 ≤ c.toNat ∧ c.toNat ≤ 57 then decDigitsAux t (acc * 10 + (c.toNat - 48))
    else none

/-- Python `float(s)` on the plain decimal literals the modem page carries
(optional sign, digits, at most one decimal point), as an exact decimal;
`none` models the raised `ValueError`.  Exponent and special-value forms are
outside the modelled fragment. -/
def pyFloat (s : String) : Option PyFloat :=
  match s.toList with
  | [] => none
  | cs =>
    let sb : Int × List Char :=
      match cs with
      | c :: t => if c == '-' then (-1, t) else if c == '+' then (1, t) else (1, cs)
      | [] => (1, cs)
    let body := sb.2
    if body.isEmpty then none
    else if 2 ≤ (body.filter (fun c => c == '.')).length then none
    else
      let ip := body.takeWhile (fun c => c != '.')
      let fp := (body.dropWhile (fun c => c != '.')).drop 1
      if ip.isEmpty ∧ fp.isEmpty then none
      else
        match decDigitsAux ip 0, decDigitsAux fp 0 with
        | some i, some f =>
          some { num := sb.1 * ((i : Int) * (10 : Int) ^ fp.length + (f : Int)),
                 den := 10 ^ fp.length }
        | _, _ => none

/-- One generator element: `float(t.replace(unit, "").strip())`. -/
def convUnit (unit t : String) : Option PyFloat := pyFloat (pyStrip (pyReplace t unit))

/-- The `ValueError` message of a failed `float` conversion. -/
def floatErrMsg (unit t : String) : String :=
  "could not convert string to float: \x27" ++ pyStrip (pyReplace t unit) ++ "\x27"

/-- Tuple unpacking `a, b = (float(t.replace(unit,"").strip()) for t in ts)`:
the unpacking pulls two elements and then checks exhaustion, so with fewer
than two elements it raises `ValueError("not enough values to unpack ...")`,
with more than two it evaluates a third element and raises
`ValueError("too many values to unpack (expected 2)")`; a failing `float`
conversion raises its own `ValueError` first. -/
def unpack2 (unit : String) (ts : List String) : Except PyErr (PyFloat × PyFloat) :=
  match ts with
  | [] => .error (.valueError "not enough values to unpack (expected 2, got 0)")
  | [t0] =>
    match convUnit unit t0 with
    | none => .error (.valueError (floatErrMsg unit t0))
    | some _ => .error (.valueError "not enough values to unpack (expected 2, got 1)")
  | [t0, t1] =>
    match convUnit unit t0 with
    | none => .error (.valueError (floatErrMsg unit t0))
    | some r0 =>
      match convUnit unit t1 with
      | none => .error (.valueError (floatErrMsg unit t1))
      | some r1 => .ok (r0, r1)
  | t0 :: t1 :: t2 :: _ =>
    match convUnit unit t0 with
    | none => .error (.valueError (floatErrMsg unit t0))
    | some _ =>
      match convUnit unit t1 with
      | none => .error (.valueError (floatErrMsg unit t1))
      | some _ =>
        match convUnit unit t2 with
        | none => .error (.valueError (floatErrMsg unit t2))
        | some _ => .error (.valueError "too many values to unpack (expected 2)")

/-- `fetch_pair(title, unit)` inside `parse` (src/tgiistat.py lines 120-123)
combined with the two-element unpacking at its call sites: `lr[0]` raises
`IndexError` when no text node equals `title`. -/
def fetch_pair (soup : List HtmlSection) (title unit : String) : Except PyErr (PyFloat × PyFloat) :=
  match sectionsWith soup title with
  | [] => .error (.indexError "list index out of range")
  | sec :: _ => unpack2 unit (matchesIn sec unit)

/-- `parse(html)` (src/tgiistat.py lines 115-130): the four metric pairs are
extracted in program order and inserted into the result mapping in insertion
order; the first failure propagates and no mapping is produced. -/
def parse (soup : List HtmlSection) : Except PyErr (List (String × PyFloat)) := do
  let lr ← fetch_pair soup "Line Rate" "Mbps"
  let op ← fetch_pair soup "Output Power" "dBm"
  let la ← fetch_pair soup "Line Attenuation" "dB"
  let nm ← fetch_pair soup "Noise Margin" "dB"
  pure [("up_rate", lr.1), ("down_rate", lr.2),
        ("up_power", op.1), ("down_power", op.2),
        ("up_attenuation", la.1), ("down_attenuation", la.2),
        ("up_noisemargin", nm.1), ("down_noisemargin", nm.2)]

/-! ### Concrete fixtures for witnesses and counterexamples -/

/-- An SRP backend instantiation with a tiny group and a constant dummy
digest, used to evaluate the model at concrete inputs (the claims quantify
over the backend). -/
def testLib : SrpLib := { N := 23, g := 5, a := 3, H := fun _ => [1] }

/-- A concrete configuration. -/
def testCfg : Config := { address := "10.1.1.1", username := "admin", password := "p@ss" }

/-- A 64-character CSRF token body. -/
def csrf64 : String :=
  "0123456789abcdef0123456789abcdef0123456789abcdef0123456789abcdef"

/-- A server environment for a fully successful handshake. -/
def envGood : Env :=
  { csrfBody := csrf64, status1 := 200, json1 := [("s", "beef"), ("B", "02")],
    status2 := 200, json2 := [] }

/-- An environment whose CSRF body is not 64 characters long. -/
def envBadCsrf : Env :=
  { csrfBody := "short", status1 := 200, json1 := [], status2 := 200, json2 := [] }

/-- An environment whose challenge has an empty salt field and a valid
nonzero `B`. -/
def envEmptyS : Env :=
  { csrfBody := csrf64, status1 := 200, json1 := [("s", ""), ("B", "02")],
    status2 := 200, json2 := [] }

/-- An environment whose challenge `B` field decodes to the empty byte
string (the zero bignum). -/
def envZeroB : Env :=
  { csrfBody := csrf64, status1 := 200, json1 := [("s", "beef"), ("B", "")],
    status2 := 200, json2 := [] }

/-- An environment whose proof POST is answered with HTTP 500 and a JSON
body that does carry an `error` field. -/
def envC4 : Env :=
  { csrfBody := csrf64, status1 := 200, json1 := [("s", "beef"), ("B", "02")],
    status2 := 500, json2 := [("error", "x")] }

/-- A fetch environment whose page GET is answered 404. -/
def fenv404 : FetchEnv :=
  { connectEnv := envGood, pageStatus := 404, pageBody := "nope" }

/-- A fetch environment whose page GET is answered 200. -/
def fenv200 : FetchEnv :=
  { connectEnv := envGood, pageStatus := 200, pageBody := "stats page" }

/-- A Fetcher that already holds an authenticated session. -/
def fetcherReady : Fetcher := { config := testCfg, session := some () }

/-- Configuration whose username equals its password. -/
def cfgSame : Config :=
  { address := "10.1.1.1", username := "secret", password := "secret" }

/-- The spec's example page: each metric section holds its label text and
exactly two unit-bearing values, in document order. -/
def soupExample : List HtmlSection :=
  [{ title := "Line Rate", texts := ["Line Rate", "12.3 Mbps", "98.7 Mbps"] },
   { title := "Output Power", texts := ["Output Power", "1.5 dBm", "19.8 dBm"] },
   { title := "Line Attenuation", texts := ["Line Attenuation", "16.1 dB", "34.4 dB"] },
   { title := "Noise Margin", texts := ["Noise Margin", "12.8 dB", "6.2 dB"] }]

/-- A page whose Line Rate section carries three unit-bearing values. -/
def soup3 : List HtmlSection :=
  [{ title := "Line Rate", texts := ["12.3 Mbps", "98.7 Mbps", "55.1 Mbps"] }]

/-- A page whose Line Rate section carries a single unit-bearing value. -/
def soup1 : List HtmlSection :=
  [{ title := "Line Rate", texts := ["12.3 Mbps"] }]

/-- Data fields of the first authentication POST. -/
def post1data (lib : SrpLib) (cfg : Config) (csrf : String) : List (String × String) :=
  [("I", cfg.username),
   ("A", hexlify (natToBytes (powMod lib.g lib.a lib.N))),
   ("CSRFtoken", csrf)]

/-! ### Helper lemmas about connect -/

/-- The user object after the `BN_hex2bn` override: its multiplier is
`kDevice`, whatever multiplier `k0` the constructor computed. -/
lemma overridden_user (lib : SrpLib) (I p : String) (k0 : Nat) :
    BN_hex2bn (User.initK lib I p k0) kDeviceHex =
      { I := I, p := p, a := lib.a, A := powMod lib.g lib.a lib.N, k := kDevice } := rfl

/-- On the overridden user object, a successful `process_challenge` returns
exactly the spec-level SRP-6a client proof computed with the device
multiplier `kDevice`. -/
lemma process_challenge_spec (lib : SrpLib) (I p : String) (k0 : Nat) (s Bb : Bytes)
    (hBz : bytesToNat Bb ≠ 0)
    (hu : scramble lib (powMod lib.g lib.a lib.N) (bytesToNat Bb) ≠ 0) :
    process_challenge lib (BN_hex2bn (User.initK lib I p k0) kDeviceHex) s Bb =
      some (srp6aClientProof lib kDevice I p s Bb) := by
  unfold process_challenge srp6aClientProof
  rw [overridden_user]
  simp only [if_neg hBz, if_neg hu]
  rfl

/-- If `process_challenge` succeeds, its result is a digest of the hash. -/
lemma process_challenge_H (lib : SrpLib) (st : SrpUser) (s Bb Mb : Bytes)
    (h : process_challenge lib st s Bb = some Mb) : ∃ bs, Mb = lib.H bs := by
  unfold process_challenge at h
  by_cases h0 : bytesToNat Bb = 0
  · rw [if_pos h0] at h; cases h
  · rw [if_neg h0] at h
    by_cases h1 : scramble lib st.A (bytesToNat Bb) = 0
    · rw [if_pos h1] at h; cases h
    · rw [if_neg h1] at h
      exact ⟨_, (Option.some.inj h).symm⟩

/-- Every run of `connect` issues one of exactly three request traces: the
CSRF GET alone (only when the token length is wrong), the GET plus the first
POST, or the GET plus both POSTs, where the second POST carries a hex digest
of the hash as `M` and the CSRF body as token. -/
lemma connect_shape (lib : SrpLib) (cfg : Config) (env : Env) :
    (env.csrfBody.length ≠ 64 ∧
      connect lib cfg env = ([Request.get (csrfUrl cfg)], .error (.exn "Bad csrf response")))
  ∨ (∃ e, connect lib cfg env =
      ([Request.get (csrfUrl cfg), Request.post (authUrl cfg) (post1data lib cfg env.csrfBody)],
       Except.error e))
  ∨ (∃ bs r, connect lib cfg env =
      ([Request.get (csrfUrl cfg), Request.post (authUrl cfg) (post1data lib cfg env.csrfBody),
        Request.post (authUrl cfg) [("M", hexlify (lib.H bs)), ("CSRFtoken", env.csrfBody)]],
       r)) := by
  have hA : (BN_hex2bn (User.initK lib cfg.username cfg.password (standardK lib)) kDeviceHex).A
      = powMod lib.g lib.a lib.N := rfl
  by_cases hc : env.csrfBody.length = 64
  case neg => exact .inl ⟨hc, by simp [connect, connectK, hc]⟩
  case pos =>
    by_cases h1 : env.status1 = 200
    case neg =>
      exact .inr (.inl ⟨.exn ("Error authenticating " ++ toString env.status1),
        by simp [connect, connectK, hc, h1, hA, post1data]⟩)
    case pos =>
      cases hs : jget "s" env.json1 with
      | none => exact .inr (.inl ⟨.keyError "s",
          by simp [connect, connectK, hc, h1, hs, hA, post1data]⟩)
      | some sH =>
        cases hB : jget "B" env.json1 with
        | none => exact .inr (.inl ⟨.keyError "B",
            by simp [connect, connectK, hc, h1, hs, hB, hA, post1data]⟩)
        | some BH =>
          cases hsx : unhexlify sH with
          | none => exact .inr (.inl ⟨.binasciiError,
              by simp [connect, connectK, hc, h1, hs, hB, hsx, hA, post1data]⟩)
          | some s =>
            cases hBx : unhexlify BH with
            | none => exact .inr (.inl ⟨.binasciiError,
                by simp [connect, connectK, hc, h1, hs, hB, hsx, hBx, hA, post1data]⟩)
            | some Bb =>
              cases hpc : process_challenge lib
                  (BN_hex2bn (User.initK lib cfg.username cfg.password (standardK lib)) kDeviceHex)
                  s Bb with
              | none => exact .inr (.inl ⟨.typeError
                    "argument should be a bytes-like object or ASCII string, not \x27NoneType\x27",
                  by simp [connect, connectK, hc, h1, hs, hB, hsx, hBx, hpc, hA, post1data]⟩)
              | some Mb =>
                obtain ⟨bs, hMb⟩ := process_challenge_H lib _ s Bb Mb hpc
                subst hMb
                by_cases h2 : env.status2 = 200
                case neg =>
                  exact .inr (.inr ⟨bs,
                    .error (.exn ("Didn\x27t connect, error " ++ toString env.status2)),
                    by simp [connect, connectK, hc, h1, hs, hB, hsx, hBx, hpc, h2, hA, post1data]⟩)
                case pos =>
                  cases herr : jget "error" env.json2 with
                  | none => exact .inr (.inr ⟨bs, .ok (),
                      by simp [connect, connectK, hc, h1, hs, hB, hsx, hBx, hpc, h2, herr, hA,
                        post1data]⟩)
                  | some e => exact .inr (.inr ⟨bs,
                      .error (.exn ("Authentication error. Wrong password? (" ++ e ++ ")")),
                      by simp [connect, connectK, hc, h1, hs, hB, hsx, hBx, hpc, h2, herr, hA,
                        post1data]⟩)

/-- With a well-formed challenge response the handshake reaches the proof
POST; both the trace and the final decision are fully determined. -/
lemma connect_full (lib : SrpLib) (cfg : Config) (env : Env) (sH BH : String) (s Bb : Bytes)
    (hc : env.csrfBody.length = 64) (h1 : env.status1 = 200)
    (hs : jget "s" env.json1 = some sH) (hB : jget "B" env.json1 = some BH)
    (hsx : unhexlify sH = some s) (hBx : unhexlify BH = some Bb)
    (hBz : bytesToNat Bb ≠ 0)
    (hu : scramble lib (powMod lib.g lib.a lib.N) (bytesToNat Bb) ≠ 0) :
    connect lib cfg env =
      ([Request.get (csrfUrl cfg),
        Request.post (authUrl cfg) (post1data lib cfg env.csrfBody),
        Request.post (authUrl cfg)
          [("M", hexlify (srp6aClientProof lib kDevice cfg.username cfg.password s Bb)),
           ("CSRFtoken", env.csrfBody)]],
       if env.status2 ≠ 200 then
         .error (.exn ("Didn\x27t connect, error " ++ toString env.status2))
       else
         match jget "error" env.json2 with
         | some e => .error (.exn ("Authentication error. Wrong password? (" ++ e ++ ")"))
         | none => .ok ()) := by
  have hA : (BN_hex2bn (User.initK lib cfg.username cfg.password (standardK lib)) kDeviceHex).A
      = powMod lib.g lib.a lib.N := rfl
  have hspec := process_challenge_spec lib cfg.username cfg.password (standardK lib) s Bb hBz hu
  by_cases h2 : env.status2 = 200
  case pos =>
    cases herr : jget "error" env.json2 with
    | none => simp [connect, connectK, hc, h1, hs, hB, hsx, hBx, hspec, h2, herr, hA, post1data]
    | some e => simp [connect, connectK, hc, h1, hs, hB, hsx, hBx, hspec, h2, herr, hA, post1data]
  case neg =>
    simp [connect, connectK, hc, h1, hs, hB, hsx, hBx, hspec, h2, hA, post1data]

/-! ### The claims -/

/-- C1: in every handshake that reaches the SRP computations, the `A` sent in
the first POST is `g^a mod N` (a value that does not involve the multiplier
`k` at all) and the proof `M` sent in the second POST is the SRP-6a client
proof computed with the fixed 256-bit device multiplier
`kDevice = 0x05b9e8ef059c6b32ea59fc1d322d37f04aa30bae5aa9003b8321e21ddb04e300`;
moreover the standard multiplier `k = H(N || g)` the library constructor
derives plays no role at all: `connectK` is constant in it.  (In the code the
override at line 62 lands after `srp.User` has already drawn `a` and computed
`A`, but before the only computation that reads `k`, namely
`process_challenge`.) -/
theorem c1_k_override (lib : SrpLib) (cfg : Config) (env : Env) (sH BH : String) (s Bb : Bytes)
    (hc : env.csrfBody.length = 64) (h1 : env.status1 = 200)
    (hs : jget "s" env.json1 = some sH) (hB : jget "B" env.json1 = some BH)
    (hsx : unhexlify sH = some s) (hBx : unhexlify BH = some Bb)
    (hBz : bytesToNat Bb ≠ 0)
    (hu : scramble lib (powMod lib.g lib.a lib.N) (bytesToNat Bb) ≠ 0) :
    (connect lib cfg env).1 =
      [Request.get (csrfUrl cfg),
       Request.post (authUrl cfg)
         [("I", cfg.username), ("A", hexlify (natToBytes (powMod lib.g lib.a lib.N))),
          ("CSRFtoken", env.csrfBody)],
       Request.post (authUrl cfg)
         [("M", hexlify (srp6aClientProof lib kDevice cfg.username cfg.password s Bb)),
          ("CSRFtoken", env.csrfBody)]]
    ∧ kDevice = 0x05b9e8ef059c6b32ea59fc1d322d37f04aa30bae5aa9003b8321e21ddb04e300
    ∧ ∀ k0 k1 : Nat, connectK lib cfg env k0 = connectK lib cfg env k1 := by
  refine ⟨?_, rfl, fun k0 k1 => rfl⟩
  rw [connect_full lib cfg env sH BH s Bb hc h1 hs hB hsx hBx hBz hu]
  simp [post1data]

/-- Witness for `c1_k_override` at a concrete backend and environment. -/
theorem c1_k_override_w :
    envGood.csrfBody.length = 64 ∧ bytesToNat [2] ≠ 0 ∧
    ((connect testLib testCfg envGood).1 =
      [Request.get (csrfUrl testCfg),
       Request.post (authUrl testCfg)
         [("I", testCfg.username),
          ("A", hexlify (natToBytes (powMod testLib.g testLib.a testLib.N))),
          ("CSRFtoken", envGood.csrfBody)],
       Request.post (authUrl testCfg)
         [("M", hexlify (srp6aClientProof testLib kDevice testCfg.username testCfg.password
            [190, 239] [2])),
          ("CSRFtoken", envGood.csrfBody)]]
     ∧ kDevice = 0x05b9e8ef059c6b32ea59fc1d322d37f04aa30bae5aa9003b8321e21ddb04e300
     ∧ ∀ k0 k1 : Nat, connectK testLib testCfg envGood k0 = connectK testLib testCfg envGood k1) :=
  ⟨rfl, by decide,
   c1_k_override testLib testCfg envGood "beef" "02" [190, 239] [2] rfl rfl rfl rfl rfl rfl
     (by decide) (by decide)⟩

/-- C2: when the CSRF response body does not have exactly 64 characters,
`connect` raises the bad-csrf error having issued only the CSRF GET — no POST
at all, so neither SRP message is sent; when the body has exactly 64
characters it proceeds to the first POST. -/
theorem c2_csrf_gate (lib : SrpLib) (cfg : Config) (env : Env) :
    (env.csrfBody.length ≠ 64 →
      connect lib cfg env =
        ([Request.get (csrfUrl cfg)], .error (.exn "Bad csrf response")))
    ∧ (env.csrfBody.length = 64 →
      ∃ d rest, (connect lib cfg env).1 =
        Request.get (csrfUrl cfg) :: Request.post (authUrl cfg) d :: rest) := by
  constructor
  · intro h
    simp [connect, connectK, h]
  · intro h
    rcases connect_shape lib cfg env with ⟨hn, _⟩ | ⟨e, he⟩ | ⟨bs, r, hr⟩
    · exact absurd h hn
    · exact ⟨_, _, by rw [he]⟩
    · exact ⟨_, _, by rw [hr]⟩

/-- Witness for `c2_csrf_gate`: a 5-character body fails before any POST, a
64-character body reaches the first POST. -/
theorem c2_csrf_gate_w :
    (connect testLib testCfg envBadCsrf =
      ([Request.get (csrfUrl testCfg)], .error (.exn "Bad csrf response")))
    ∧ ∃ d rest, (connect testLib testCfg envGood).1 =
        Request.get (csrfUrl testCfg) :: Request.post (authUrl testCfg) d :: rest :=
  ⟨(c2_csrf_gate testLib testCfg envBadCsrf).1 (by decide),
   (c2_csrf_gate testLib testCfg envGood).2 rfl⟩

/-- Counterexample to C3 as stated: a challenge whose `s` field decodes to
the empty byte string is not rejected — the handshake computes the proof,
sends the second POST and succeeds, contradicting "fails ... whenever the s
or B field ... decodes to an empty byte string". -/
theorem c3_cex :
    unhexlify "" = some [] ∧
    connect testLib testCfg envEmptyS =
      ([Request.get (csrfUrl testCfg),
        Request.post (authUrl testCfg) [("I", "admin"), ("A", "0a"), ("CSRFtoken", csrf64)],
        Request.post (authUrl testCfg) [("M", "01"), ("CSRFtoken", csrf64)]],
       .ok ()) :=
  ⟨rfl, rfl⟩

/-- C3 (amended): a challenge whose `s` or `B` field fails hex decoding, or
whose `B` decodes to the empty byte string (the zero bignum, caught by the
library's SRP-6a safety check), makes the handshake fail before the proof
POST is sent — but with an undistinguished `binascii.Error`, or with the
`TypeError` raised by `hexlify(None)` after `process_challenge` returns
`None`; there is no "malformed challenge" protocol error, and an empty salt
is accepted (see the counterexample). -/
theorem c3_malformed (lib : SrpLib) (cfg : Config) (env : Env) (sH BH : String)
    (hc : env.csrfBody.length = 64) (h1 : env.status1 = 200)
    (hs : jget "s" env.json1 = some sH) (hB : jget "B" env.json1 = some BH)
    (hbad : unhexlify sH = none ∨ unhexlify BH = none ∨
      (∃ Bb, unhexlify BH = some Bb ∧ bytesToNat Bb = 0)) :
    ∃ e, connect lib cfg env =
        ([Request.get (csrfUrl cfg),
          Request.post (authUrl cfg) (post1data lib cfg env.csrfBody)],
         .error e)
      ∧ (e = .binasciiError ∨
         e = .typeError
           "argument should be a bytes-like object or ASCII string, not \x27NoneType\x27") := by
  rcases hbad with hsx | hBx | ⟨Bb, hBx, hz⟩
  · exact ⟨.binasciiError,
      by simp [connect, connectK, hc, h1, hs, hB, hsx, post1data, BN_hex2bn, User.initK],
      .inl rfl⟩
  · cases hsx : unhexlify sH with
    | none => exact ⟨.binasciiError,
        by simp [connect, connectK, hc, h1, hs, hB, hsx, post1data, BN_hex2bn, User.initK],
        .inl rfl⟩
    | some s => exact ⟨.binasciiError,
        by simp [connect, connectK, hc, h1, hs, hB, hsx, hBx, post1data, BN_hex2bn, User.initK],
        .inl rfl⟩
  · cases hsx : unhexlify sH with
    | none => exact ⟨.binasciiError,
        by simp [connect, connectK, hc, h1, hs, hB, hsx, post1data, BN_hex2bn, User.initK],
        .inl rfl⟩
    | some s => exact ⟨.typeError
          "argument should be a bytes-like object or ASCII string, not \x27NoneType\x27",
        by simp [connect, connectK, hc, h1, hs, hB, hsx, hBx, hz, post1data, process_challenge,
          BN_hex2bn, User.initK],
        .inr rfl⟩

/-- Witness for `c3_malformed`: a `B` field decoding to the empty byte
string fails before the proof POST. -/
theorem c3_malformed_w :
    envZeroB.csrfBody.length = 64 ∧ unhexlify "" = some [] ∧
    ∃ e, connect testLib testCfg envZeroB =
        ([Request.get (csrfUrl testCfg),
          Request.post (authUrl testCfg) (post1data testLib testCfg envZeroB.csrfBody)],
         .error e)
      ∧ (e = .binasciiError ∨
         e = .typeError
           "argument should be a bytes-like object or ASCII string, not \x27NoneType\x27") :=
  ⟨rfl, rfl,
   c3_malformed testLib testCfg envZeroB "beef" "" rfl rfl rfl rfl
     (.inr (.inr ⟨[], rfl, rfl⟩))⟩

/-- Counterexample to C4 as stated: when the proof POST comes back with a
non-200 status and a JSON body containing `error: "x"`, the raised failure
carries the HTTP status, not the server's error string — the status check
runs first and the body is never parsed. -/
theorem c4_cex :
    jget "error" envC4.json2 = some "x" ∧
    (connect testLib testCfg envC4).2 = .error (.exn "Didn\x27t connect, error 500") ∧
    "Didn\x27t connect, error 500" ≠ "Authentication error. Wrong password? (x)" :=
  ⟨rfl, rfl, by decide⟩

/-- C4 (amended): authentication succeeds exactly when the proof POST is
answered with HTTP 200 and a JSON body with no `error` field.  With status
200 and an `error` field present, the failure embeds exactly the server's
error string, and the outcome depends on no other field of the body (fourth
conjunct); with a non-200 status the failure carries the HTTP status and the
body is not consulted at all. -/
theorem c4_step4 (lib : SrpLib) (cfg : Config) (env : Env) (sH BH : String) (s Bb : Bytes)
    (hc : env.csrfBody.length = 64) (h1 : env.status1 = 200)
    (hs : jget "s" env.json1 = some sH) (hB : jget "B" env.json1 = some BH)
    (hsx : unhexlify sH = some s) (hBx : unhexlify BH = some Bb)
    (hBz : bytesToNat Bb ≠ 0)
    (hu : scramble lib (powMod lib.g lib.a lib.N) (bytesToNat Bb) ≠ 0) :
    ((connect lib cfg env).2 = .ok () ↔
      (env.status2 = 200 ∧ jget "error" env.json2 = none))
    ∧ (env.status2 = 200 → ∀ e, jget "error" env.json2 = some e →
        (connect lib cfg env).2 =
          .error (.exn ("Authentication error. Wrong password? (" ++ e ++ ")")))
    ∧ (env.status2 ≠ 200 →
        (connect lib cfg env).2 =
          .error (.exn ("Didn\x27t connect, error " ++ toString env.status2)))
    ∧ (∀ j2 : List (String × String), jget "error" j2 = jget "error" env.json2 →
        (connect lib cfg { env with json2 := j2 }).2 = (connect lib cfg env).2) := by
  have hcf := connect_full lib cfg env sH BH s Bb hc h1 hs hB hsx hBx hBz hu
  refine ⟨?_, ?_, ?_, ?_⟩
  · rw [hcf]
    by_cases h2 : env.status2 = 200
    · cases herr : jget "error" env.json2 <;> simp [h2, herr]
    · simp [h2]
  · intro h2 e herr
    rw [hcf]
    simp [h2, herr]
  · intro h2
    rw [hcf]
    simp [h2]
  · intro j2 heq
    have hcf2 := connect_full lib cfg { env with json2 := j2 } sH BH s Bb hc h1 hs hB hsx hBx hBz hu
    rw [hcf, hcf2]
    simp [heq]

/-- Witness for `c4_step4` at a concrete backend and environment. -/
theorem c4_step4_w :
    envGood.status2 = 200 ∧
    (((connect testLib testCfg envGood).2 = .ok () ↔
        (envGood.status2 = 200 ∧ jget "error" envGood.json2 = none))
     ∧ (envGood.status2 = 200 → ∀ e, jget "error" envGood.json2 = some e →
          (connect testLib testCfg envGood).2 =
            .error (.exn ("Authentication error. Wrong password? (" ++ e ++ ")")))
     ∧ (envGood.status2 ≠ 200 →
          (connect testLib testCfg envGood).2 =
            .error (.exn ("Didn\x27t connect, error " ++ toString envGood.status2)))
     ∧ (∀ j2 : List (String × String), jget "error" j2 = jget "error" envGood.json2 →
          (connect testLib testCfg { envGood with json2 := j2 }).2 =
            (connect testLib testCfg envGood).2)) :=
  ⟨rfl,
   c4_step4 testLib testCfg envGood "beef" "02" [190, 239] [2] rfl rfl rfl rfl rfl rfl
     (by decide) (by decide)⟩

/-- C5: on every successful handshake the request trace is exactly one CSRF
GET followed by the two authentication POSTs, and both POSTs carry the CSRF
GET's body, unmodified, as their `CSRFtoken` field — the token is fetched
once and not refreshed between the POSTs. -/
theorem c5_token_binding (lib : SrpLib) (cfg : Config) (env : Env)
    (h : (connect lib cfg env).2 = .ok ()) :
    ∃ d1 d2, (connect lib cfg env).1 =
        [Request.get (csrfUrl cfg), Request.post (authUrl cfg) d1, Request.post (authUrl cfg) d2]
      ∧ jget "CSRFtoken" d1 = some env.csrfBody
      ∧ jget "CSRFtoken" d2 = some env.csrfBody
      ∧ (connect lib cfg env).1.count (Request.get (csrfUrl cfg)) = 1 := by
  rcases connect_shape lib cfg env with ⟨hn, hq⟩ | ⟨e, hq⟩ | ⟨bs, r, hq⟩
  · rw [hq] at h; simp at h
  · rw [hq] at h; simp at h
  · refine ⟨_, _, by rw [hq], ?_, ?_, ?_⟩
    · simp [post1data, jget]
    · simp [jget]
    · rw [hq]
      simp [List.count_cons]

/-- Witness for `c5_token_binding` at a concrete backend and environment. -/
theorem c5_token_binding_w :
    (connect testLib testCfg envGood).2 = .ok () ∧
    ∃ d1 d2, (connect testLib testCfg envGood).1 =
        [Request.get (csrfUrl testCfg), Request.post (authUrl testCfg) d1,
         Request.post (authUrl testCfg) d2]
      ∧ jget "CSRFtoken" d1 = some envGood.csrfBody
      ∧ jget "CSRFtoken" d2 = some envGood.csrfBody
      ∧ (connect testLib testCfg envGood).1.count (Request.get (csrfUrl testCfg)) = 1 :=
  ⟨rfl, c5_token_binding testLib testCfg envGood rfl⟩

/-- Counterexample to C6 as stated: with the final GET answered by HTTP 404,
`fetch` does not fail with a fetch error — it returns the body verbatim. -/
theorem c6_cex :
    fenv404.pageStatus = 404 ∧
    fetch testLib fetcherReady fenv404 =
      ([Request.get (modemUrl testCfg)], .ok ("nope", fetcherReady)) :=
  ⟨rfl, rfl⟩

/-- C6 (amended): `fetch` never examines the status of the final GET: for
every page status, 200 or not, it returns the response body verbatim and
raises nothing. -/
theorem c6_fetch_verbatim (lib : SrpLib) (f : Fetcher) (env : FetchEnv)
    (h : f.session = some ()) :
    fetch lib f env = ([Request.get (modemUrl f.config)], .ok (env.pageBody, f)) := by
  simp [fetch, h]

/-- Witness for `c6_fetch_verbatim`. -/
theorem c6_fetch_verbatim_w :
    fetcherReady.session = some () ∧
    fetch testLib fetcherReady fenv200 =
      ([Request.get (modemUrl fetcherReady.config)], .ok (fenv200.pageBody, fetcherReady)) :=
  ⟨rfl, c6_fetch_verbatim testLib fetcherReady fenv200 rfl⟩

/-- C10: the handshake runs at most once per Fetcher instance: a first
successful `fetch` on a session-less state stores the session, and `fetch`
on the resulting state issues only the page GET — no CSRF GET, no POST — and
leaves the state unchanged. -/
theorem c10_session_reuse (lib : SrpLib) (f : Fetcher) (env1 env2 : FetchEnv)
    (b1 : String) (f1 : Fetcher)
    (h0 : f.session = none)
    (h1 : (fetch lib f env1).2 = .ok (b1, f1)) :
    f1.session = some () ∧ f1.config = f.config ∧
    fetch lib f1 env2 = ([Request.get (modemUrl f1.config)], .ok (env2.pageBody, f1)) := by
  unfold fetch at h1
  rw [h0] at h1
  cases hcc : connect lib f.config env1.connectEnv with
  | mk tr r =>
    rw [hcc] at h1
    cases r with
    | error e => simp at h1
    | ok s =>
      cases s
      simp only [Except.ok.injEq, Prod.mk.injEq] at h1
      obtain ⟨hb, hf⟩ := h1
      subst hf
      exact ⟨rfl, rfl, by simp [fetch]⟩

/-- Witness for `c10_session_reuse`: a fresh Fetcher, one successful fetch,
then a second fetch that reuses the session. -/
theorem c10_session_reuse_w :
    (Fetcher.init testCfg).session = none ∧
    (fetch testLib (Fetcher.init testCfg) fenv200).2 =
      .ok (fenv200.pageBody, { config := testCfg, session := some () }) ∧
    ((Fetcher.mk testCfg (some ())).session = some ()
      ∧ (Fetcher.mk testCfg (some ())).config = (Fetcher.init testCfg).config
      ∧ fetch testLib (Fetcher.mk testCfg (some ())) fenv404 =
          ([Request.get (modemUrl (Fetcher.mk testCfg (some ())).config)],
           .ok (fenv404.pageBody, Fetcher.mk testCfg (some ())))) :=
  ⟨rfl, rfl,
   c10_session_reuse testLib (Fetcher.init testCfg) fenv200 fenv404 fenv200.pageBody
     (Fetcher.mk testCfg (some ())) rfl rfl⟩

/-! ### Substring and hex-character lemmas for the password-secrecy claim -/

/-- A matched prefix only contains characters of its ambient list. -/
lemma startsWithL_mem (n : List Char) : ∀ h : List Char, startsWithL n h = true →
    ∀ c ∈ n, c ∈ h := by
  induction n with
  | nil => intro h _ c hc; cases hc
  | cons a as ih =>
    intro h hp c hc
    cases h with
    | nil => cases hp
    | cons b bs =>
      simp only [startsWithL, Bool.and_eq_true, beq_iff_eq] at hp
      obtain ⟨hab, hrest⟩ := hp
      rcases List.mem_cons.mp hc with rfl | hc
      · exact List.mem_cons.mpr (.inl hab)
      · exact List.mem_cons.mpr (.inr (ih bs hrest c hc))

/-- A matched substring only contains characters of the haystack. -/
lemma hasSubL_mem (n : List Char) : ∀ h : List Char, hasSubL n h = true →
    ∀ c ∈ n, c ∈ h := by
  intro h
  induction h with
  | nil =>
    intro hs c hc
    cases n with
    | nil => cases hc
    | cons a as => cases hs
  | cons b bs ih =>
    intro hs c hc
    simp only [hasSubL, Bool.or_eq_true] at hs
    rcases hs with hp | hrec
    · exact startsWithL_mem n (b :: bs) hp c hc
    · exact List.mem_cons.mpr (.inr (ih hrec c hc))

/-- Hex digit characters pass the `hexVal` test. -/
lemma hexVal_hexDigitChar (n : Nat) (h : n < 16) : (hexVal (hexDigitChar n)).isSome = true := by
  interval_cases n <;> decide

/-- All bytes produced by `natToBytesAux` are below 256. -/
lemma natToBytesAux_lt (fuel : Nat) : ∀ n, ∀ b ∈ natToBytesAux fuel n, b < 256 := by
  induction fuel with
  | zero => intro n b hb; cases hb
  | succ f ih =>
    intro n b hb
    unfold natToBytesAux at hb
    by_cases h : n = 0
    · rw [if_pos h] at hb; cases hb
    · rw [if_neg h] at hb
      rcases List.mem_append.mp hb with hb | hb
      · exact ih _ b hb
      · simp only [List.mem_singleton] at hb
        omega

/-- All bytes produced by `natToBytes` are below 256. -/
lemma natToBytes_lt (n : Nat) : ∀ b ∈ natToBytes n, b < 256 :=
  natToBytesAux_lt n n

/-- Every character of a `hexlify` output is a hex digit, provided the
input entries are bytes. -/
lemma hexlify_chars (bs : Bytes) (hb : ∀ b ∈ bs, b < 256) :
    ∀ c ∈ (hexlify bs).toList, (hexVal c).isSome = true := by
  intro c hc
  have hmem : c ∈ (bs.map (fun b => [hexDigitChar (b / 16), hexDigitChar (b % 16)])).flatten := hc
  rw [List.mem_flatten] at hmem
  obtain ⟨l, hl, hcl⟩ := hmem
  rw [List.mem_map] at hl
  obtain ⟨b, hbm, rfl⟩ := hl
  have hblt := hb b hbm
  simp only [List.mem_cons, List.mem_singleton] at hcl
  rcases hcl with rfl | rfl | hcl
  · exact hexVal_hexDigitChar _ (by omega)
  · exact hexVal_hexDigitChar _ (by omega)
  · cases hcl

/-- A needle containing a non-hex character never occurs in an all-hex
haystack. -/
lemma not_sub_of_nonhex (hay needle : String)
    (hhay : ∀ c ∈ hay.toList, (hexVal c).isSome = true)
    (hne : needle.toList.any (fun c => !(hexVal c).isSome) = true) :
    containsSub hay needle = false := by
  obtain ⟨c, hcmem, hcbad⟩ := List.any_eq_true.mp hne
  by_contra hcontra
  rw [Bool.not_eq_false] at hcontra
  have hmem := hasSubL_mem needle.toList hay.toList hcontra c hcmem
  have hsome := hhay c hmem
  simp [hsome] at hcbad

/-- Counterexample to C9 as stated: when the configured password happens to
equal the username, the first POST body contains the password in cleartext
(its `I` field is the username string). -/
theorem c9_cex :
    cfgSame.password = "secret" ∧
    Request.post (authUrl cfgSame)
        [("I", "secret"), ("A", "0a"), ("CSRFtoken", csrf64)]
      ∈ (connect testLib cfgSame envGood).1 ∧
    containsSub "secret" cfgSame.password = true := by
  exact ⟨rfl, by decide, by decide⟩

/-- C9 (amended): the POST bodies carry only the fields `I` (the username),
`A` and `M` (hex encodings) and `CSRFtoken` (the server-supplied token), and
the GETs carry no body, so the password never appears in any transmitted
field value as long as it does not collide with those values: whenever the
password is not a substring of the username or of the CSRF token and
contains at least one non-hex-digit character (so that it cannot occur
inside a hex encoding), no field value of any issued request contains it. -/
theorem c9_no_password_leak (lib : SrpLib) (cfg : Config) (env : Env)
    (hH : ∀ bs : Bytes, ∀ b ∈ lib.H bs, b < 256)
    (hun : containsSub cfg.username cfg.password = false)
    (hcs : containsSub env.csrfBody cfg.password = false)
    (hpw : cfg.password.toList.any (fun c => !(hexVal c).isSome) = true) :
    ∀ url d, Request.post url d ∈ (connect lib cfg env).1 →
      ∀ kv ∈ d, containsSub kv.2 cfg.password = false := by
  have hhex : ∀ bs : Bytes, (∀ b ∈ bs, b < 256) →
      containsSub (hexlify bs) cfg.password = false :=
    fun bs hb => not_sub_of_nonhex _ _ (hexlify_chars bs hb) hpw
  have hA : containsSub (hexlify (natToBytes (powMod lib.g lib.a lib.N))) cfg.password = false :=
    hhex _ (natToBytes_lt _)
  rcases connect_shape lib cfg env with ⟨hn, hq⟩ | ⟨e, hq⟩ | ⟨bs, r, hq⟩ <;> rw [hq]
  · intro url d hd
    simp at hd
  · intro url d hd kv hkv
    simp only [List.mem_cons, List.not_mem_nil, or_false, reduceCtorEq, false_or,
      Request.post.injEq] at hd
    obtain ⟨-, rfl⟩ := hd
    simp only [post1data, List.mem_cons, List.not_mem_nil, or_false] at hkv
    rcases hkv with rfl | rfl | rfl
    · exact hun
    · exact hA
    · exact hcs
  · intro url d hd kv hkv
    simp only [List.mem_cons, List.not_mem_nil, or_false, reduceCtorEq, false_or,
      Request.post.injEq] at hd
    rcases hd with ⟨-, rfl⟩ | ⟨-, rfl⟩
    · simp only [post1data, List.mem_cons, List.not_mem_nil, or_false] at hkv
      rcases hkv with rfl | rfl | rfl
      · exact hun
      · exact hA
      · exact hcs
    · simp only [List.mem_cons, List.not_mem_nil, or_false] at hkv
      rcases hkv with rfl | rfl
      · exact hhex _ (hH bs)
      · exact hcs

/-- Witness for `c9_no_password_leak` at a concrete backend and
environment. -/
theorem c9_no_password_leak_w :
    containsSub testCfg.username testCfg.password = false ∧
    containsSub envGood.csrfBody testCfg.password = false ∧
    testCfg.password.toList.any (fun c => !(hexVal c).isSome) = true ∧
    (∀ url d, Request.post url d ∈ (connect testLib testCfg envGood).1 →
      ∀ kv ∈ d, containsSub kv.2 testCfg.password = false) :=
  ⟨by decide, by decide, by decide,
   c9_no_password_leak testLib testCfg envGood
     (fun bs b hb => by simp [testLib] at hb; omega) (by decide) (by decide) (by decide)⟩

/-- Counterexample to C7 as stated: a Line Rate section with three (two or
more) unit-bearing values does not yield the first two in order — the tuple
unpacking of the generator raises `ValueError` instead. -/
theorem c7_cex :
    2 ≤ (matchesIn { title := "Line Rate", texts := ["12.3 Mbps", "98.7 Mbps", "55.1 Mbps"] }
          "Mbps").length ∧
    sectionsWith soup3 "Line Rate" =
      [{ title := "Line Rate", texts := ["12.3 Mbps", "98.7 Mbps", "55.1 Mbps"] }] ∧
    parse soup3 = .error (.valueError "too many values to unpack (expected 2)") :=
  ⟨by decide, rfl, rfl⟩

/-- C7 (amended): extraction preserves document order but demands exactly
two matches: with exactly two matching values under a title, `fetch_pair`
returns them as (first, second) — never reordered by magnitude — and `parse`
assigns the first to the "up" key and the second to the "down" key, as in
the spec's example where "12.3 Mbps" precedes "98.7 Mbps"; with more than
two matching values the unpacking raises `ValueError` instead of taking the
first two (see the counterexample). -/
theorem c7_order (soup : List HtmlSection) (sec : HtmlSection) (rest : List HtmlSection)
    (t0 t1 : String) (r0 r1 : PyFloat) (title unit : String)
    (hsec : sectionsWith soup title = sec :: rest)
    (hm : matchesIn sec unit = [t0, t1])
    (h0 : convUnit unit t0 = some r0) (h1 : convUnit unit t1 = some r1) :
    fetch_pair soup title unit = .ok (r0, r1)
    ∧ parse soupExample = .ok
        [("up_rate", ⟨123, 10⟩), ("down_rate", ⟨987, 10⟩),
         ("up_power", ⟨15, 10⟩), ("down_power", ⟨198, 10⟩),
         ("up_attenuation", ⟨161, 10⟩), ("down_attenuation", ⟨344, 10⟩),
         ("up_noisemargin", ⟨128, 10⟩), ("down_noisemargin", ⟨62, 10⟩)] := by
  refine ⟨?_, rfl⟩
  simp [fetch_pair, hsec, hm, unpack2, h0, h1]

/-- Witness for `c7_order` on the spec's example page. -/
theorem c7_order_w :
    sectionsWith soupExample "Line Rate" =
      [{ title := "Line Rate", texts := ["Line Rate", "12.3 Mbps", "98.7 Mbps"] }] ∧
    matchesIn { title := "Line Rate", texts := ["Line Rate", "12.3 Mbps", "98.7 Mbps"] } "Mbps" =
      ["12.3 Mbps", "98.7 Mbps"] ∧
    convUnit "Mbps" "12.3 Mbps" = some ⟨123, 10⟩ ∧
    (fetch_pair soupExample "Line Rate" "Mbps" = .ok (⟨123, 10⟩, ⟨987, 10⟩)
     ∧ parse soupExample = .ok
        [("up_rate", ⟨123, 10⟩), ("down_rate", ⟨987, 10⟩),
         ("up_power", ⟨15, 10⟩), ("down_power", ⟨198, 10⟩),
         ("up_attenuation", ⟨161, 10⟩), ("down_attenuation", ⟨344, 10⟩),
         ("up_noisemargin", ⟨128, 10⟩), ("down_noisemargin", ⟨62, 10⟩)]) :=
  ⟨rfl, rfl, rfl,
   c7_order soupExample { title := "Line Rate", texts := ["Line Rate", "12.3 Mbps", "98.7 Mbps"] }
     [] "12.3 Mbps" "98.7 Mbps" ⟨123, 10⟩ ⟨987, 10⟩ "Line Rate" "Mbps" rfl rfl rfl rfl⟩

/-- Counterexample to C8 as stated: with a single matching value under Line
Rate, `parse` raises the bare unpacking `ValueError`, whose message does not
identify the label. -/
theorem c8_cex :
    (matchesIn { title := "Line Rate", texts := ["12.3 Mbps"] } "Mbps").length = 1 ∧
    parse soup1 = .error (.valueError "not enough values to unpack (expected 2, got 1)") ∧
    containsSub "not enough values to unpack (expected 2, got 1)" "Line Rate" = false :=
  ⟨rfl, rfl, by decide⟩

/-- C8 (amended): with fewer than two matching values under the Line Rate
label, `parse` fails — so no result mapping, partial or default-filled, is
ever produced — but the raised error is the generic tuple-unpacking
`ValueError`, whose message does not identify the offending label. -/
theorem c8_too_few (soup : List HtmlSection) (sec : HtmlSection) (rest : List HtmlSection)
    (hsec : sectionsWith soup "Line Rate" = sec :: rest) :
    (matchesIn sec "Mbps" = [] →
      parse soup = .error (.valueError "not enough values to unpack (expected 2, got 0)"))
    ∧ (∀ t0 r0, matchesIn sec "Mbps" = [t0] → convUnit "Mbps" t0 = some r0 →
      parse soup = .error (.valueError "not enough values to unpack (expected 2, got 1)"))
    ∧ containsSub "not enough values to unpack (expected 2, got 0)" "Line Rate" = false
    ∧ containsSub "not enough values to unpack (expected 2, got 1)" "Line Rate" = false := by
  refine ⟨?_, ?_, by decide, by decide⟩
  · intro hm
    simp [parse, fetch_pair, hsec, hm, unpack2, Bind.bind, Except.bind]
  · intro t0 r0 hm h0
    simp [parse, fetch_pair, hsec, hm, unpack2, h0, Bind.bind, Except.bind]

/-- Witness for `c8_too_few` on the single-value page. -/
theorem c8_too_few_w :
    sectionsWith soup1 "Line Rate" = [{ title := "Line Rate", texts := ["12.3 Mbps"] }] ∧
    matchesIn { title := "Line Rate", texts := ["12.3 Mbps"] } "Mbps" = ["12.3 Mbps"] ∧
    convUnit "Mbps" "12.3 Mbps" = some ⟨123, 10⟩ ∧
    parse soup1 = .error (.valueError "not enough values to unpack (expected 2, got 1)") :=
  ⟨rfl, rfl, rfl,
   (c8_too_few soup1 { title := "Line Rate", texts := ["12.3 Mbps"] } [] rfl).2.1
     "12.3 Mbps" ⟨123, 10⟩ rfl rfl⟩

end Tgiistat
